import Mathlib

/-!
Shallow embedding of the FFB seasonal-stats pipeline
(`src/utils/load_seasonal_stats.py` and `src/utils/load_weekly_stats.py`).

Numeric values are modelled as rationals; a cell of a pandas row is a
`Val`, which can additionally be Python `None` or a floating NaN.
Computations that can raise a Python exception return `Except String`.
-/

namespace FFB

/-- A Python value flowing through the stat arithmetic: `None`, a float
NaN, or an ordinary number (modelled as a rational). -/
inductive Val where
  | null : Val
  | nan : Val
  | num : ℚ → Val
deriving DecidableEq, Repr

/-- Embeds `safe_divide` (load_seasonal_stats.py lines 336-340):
`if denominator == 0 or denominator is None: return 0` then
`return numerator / denominator`.  Python `nan == 0` is false, so a NaN
denominator falls through to the division; dividing `None` raises a
TypeError; a division touching NaN yields NaN. -/
def safe_divide (numerator denominator : Val) : Except String Val :=
  match denominator with
  | Val.null => Except.ok (Val.num 0)
  | Val.num q =>
      if q = 0 then Except.ok (Val.num 0)
      else
        match numerator with
        | Val.null => Except.error ("TypeError")
        | Val.nan => Except.ok Val.nan
        | Val.num p => Except.ok (Val.num (p / q))
  | Val.nan =>
      match numerator with
      | Val.null => Except.error ("TypeError")
      | Val.nan => Except.ok Val.nan
      | Val.num _ => Except.ok Val.nan

/-- Python `v * c` for a numeric constant `c` (the `* 100` of lines 235
and 239): NaN propagates, multiplying `None` raises. -/
def pyMulConst (v : Val) (c : ℚ) : Except String Val :=
  match v with
  | Val.null => Except.error ("TypeError")
  | Val.nan => Except.ok Val.nan
  | Val.num p => Except.ok (Val.num (p * c))

/-- Python `max(v, 1)` (line 244): comparing `None` with an int raises;
`max(nan, 1)` returns NaN because `1 > nan` is false. -/
def pyMaxOne (v : Val) : Except String Val :=
  match v with
  | Val.null => Except.error ("TypeError")
  | Val.nan => Except.ok Val.nan
  | Val.num q => Except.ok (Val.num (max q 1))

/-- The stat fields of one DataFrame row that `convert_to_db_records`
reads for its derived metrics (lines 235-246).  `Option.none` models a
column absent from the frame (then `row.get` returns its default); a
present cell is a `Val` and may itself be Python `None` or NaN.
Field order: completions, attempts, passing_yards, rushing_yards,
carries, receptions, targets, receiving_yards, games_played,
fantasy_points, fantasy_points_ppr. -/
structure StatRow where
  completions : Option Val
  attempts : Option Val
  passing_yards : Option Val
  rushing_yards : Option Val
  carries : Option Val
  receptions : Option Val
  targets : Option Val
  receiving_yards : Option Val
  games_played : Option Val
  fantasy_points : Option Val
  fantasy_points_ppr : Option Val
deriving DecidableEq, Repr

/-- Pandas `row.get(key, default)`: the default when the column is
missing, the stored cell otherwise. -/
def rowGet (field : Option Val) (dflt : Val) : Val :=
  field.getD dflt

/-- Embeds line 235: `completion_pct = safe_divide(row.get('completions', 0), row.get('attempts', 0)) * 100`. -/
def completion_pct (row : StatRow) : Except String Val := do
  pyMulConst (← safe_divide (rowGet row.completions (Val.num 0)) (rowGet row.attempts (Val.num 0))) 100

/-- Embeds line 236: `yards_per_attempt = safe_divide(row.get('passing_yards', 0), row.get('attempts', 0))`. -/
def yards_per_attempt (row : StatRow) : Except String Val :=
  safe_divide (rowGet row.passing_yards (Val.num 0)) (rowGet row.attempts (Val.num 0))

/-- Embeds line 237: `yards_per_completion = safe_divide(row.get('passing_yards', 0), row.get('completions', 0))`. -/
def yards_per_completion (row : StatRow) : Except String Val :=
  safe_divide (rowGet row.passing_yards (Val.num 0)) (rowGet row.completions (Val.num 0))

/-- Embeds line 238: `yards_per_carry = safe_divide(row.get('rushing_yards', 0), row.get('carries', 0))`. -/
def yards_per_carry (row : StatRow) : Except String Val :=
  safe_divide (rowGet row.rushing_yards (Val.num 0)) (rowGet row.carries (Val.num 0))

/-- Embeds line 239: `catch_pct = safe_divide(row.get('receptions', 0), row.get('targets', 0)) * 100`. -/
def catch_pct (row : StatRow) : Except String Val := do
  pyMulConst (← safe_divide (rowGet row.receptions (Val.num 0)) (rowGet row.targets (Val.num 0))) 100

/-- Embeds line 240: `yards_per_target = safe_divide(row.get('receiving_yards', 0), row.get('targets', 0))`. -/
def yards_per_target (row : StatRow) : Except String Val :=
  safe_divide (rowGet row.receiving_yards (Val.num 0)) (rowGet row.targets (Val.num 0))

/-- Embeds line 241: `yards_per_reception = safe_divide(row.get('receiving_yards', 0), row.get('receptions', 0))`. -/
def yards_per_reception (row : StatRow) : Except String Val :=
  safe_divide (rowGet row.receiving_yards (Val.num 0)) (rowGet row.receptions (Val.num 0))

/-- Embeds line 244: `games_played = max(row.get('games_played', 1), 1)`.
Note the default for a missing column is 1, not 0. -/
def games_played_floored (row : StatRow) : Except String Val :=
  pyMaxOne (rowGet row.games_played (Val.num 1))

/-- Embeds line 245: `fantasy_ppg = safe_divide(row.get('fantasy_points', 0), games_played)`. -/
def fantasy_ppg (row : StatRow) : Except String Val := do
  safe_divide (rowGet row.fantasy_points (Val.num 0)) (← games_played_floored row)

/-- Embeds line 246: `fantasy_ppr_ppg = safe_divide(row.get('fantasy_points_ppr', 0), games_played)`. -/
def fantasy_ppr_ppg (row : StatRow) : Except String Val := do
  safe_divide (rowGet row.fantasy_points_ppr (Val.num 0)) (← games_played_floored row)

/-- The derived-metric fields of one `NFLSeasonalStats` record. -/
structure DerivedMetrics where
  completion_percentage : Val
  yards_per_attempt : Val
  yards_per_completion : Val
  yards_per_carry : Val
  catch_percentage : Val
  yards_per_target : Val
  yards_per_reception : Val
  fantasy_points_per_game : Val
  fantasy_points_ppr_per_game : Val
deriving DecidableEq, Repr

/-- The derived-metric computation of `convert_to_db_records`
(lines 234-246) for one row, in source order; the first Python
exception aborts the whole conversion. -/
def convertRowDerived (row : StatRow) : Except String DerivedMetrics := do
  let cp ← completion_pct row
  let ypa ← yards_per_attempt row
  let ypc ← yards_per_completion row
  let ypcar ← yards_per_carry row
  let catchp ← catch_pct row
  let ypt ← yards_per_target row
  let ypr ← yards_per_reception row
  let ppg ← fantasy_ppg row
  let pprppg ← fantasy_ppr_ppg row
  pure ⟨cp, ypa, ypc, ypcar, catchp, ypt, ypr, ppg, pprppg⟩

/-- True exactly on an ordinary number (neither `None` nor NaN). -/
def Val.isNum : Val → Bool
  | Val.num _ => true
  | _ => false

/-! ### Evaluation lemmas for the embedded arithmetic -/

@[simp] lemma except_bind_ok {α β : Type} (a : α) (f : α → Except String β) :
    (Except.ok a >>= f : Except String β) = f a := rfl

lemma safe_divide_den_null (n : Val) : safe_divide n Val.null = Except.ok (Val.num 0) := rfl

lemma safe_divide_den_zero (n : Val) : safe_divide n (Val.num 0) = Except.ok (Val.num 0) := by
  simp [safe_divide]

lemma safe_divide_num_num (p q : ℚ) (h : q ≠ 0) :
    safe_divide (Val.num p) (Val.num q) = Except.ok (Val.num (p / q)) := by
  simp [safe_divide, h]

lemma safe_divide_num_num_eq (p q : ℚ) :
    safe_divide (Val.num p) (Val.num q) = Except.ok (Val.num (if q = 0 then 0 else p / q)) := by
  by_cases h : q = 0 <;> simp [safe_divide, h]

lemma safe_divide_null_num (q : ℚ) (h : q ≠ 0) :
    safe_divide Val.null (Val.num q) = Except.error ("TypeError") := by
  simp [safe_divide, h]

lemma safe_divide_nan_num (q : ℚ) (h : q ≠ 0) :
    safe_divide Val.nan (Val.num q) = Except.ok Val.nan := by
  simp [safe_divide, h]

lemma safe_divide_zero_or_null_den (n d : Val) (h : d = Val.num 0 ∨ d = Val.null) :
    safe_divide n d = Except.ok (Val.num 0) := by
  rcases h with h | h <;> subst h
  · exact safe_divide_den_zero n
  · exact safe_divide_den_null n

/-! ### C1: derived ratios on zero or null denominators -/

/-- C1: for every input row, whenever a derived ratio's denominator
(attempts, targets, carries, completions) is zero or null — including
missing, since `row.get` then supplies 0 — the corresponding derived
ratio computed by `convert_to_db_records` via `safe_divide`
(completion_percentage, yards_per_attempt, yards_per_completion,
yards_per_carry, catch_percentage, yards_per_target,
yards_per_reception) equals 0 and no division error is raised. -/
theorem derived_ratios_zero_on_zero_or_null_denominator (row : StatRow) :
    (rowGet row.attempts (Val.num 0) = Val.num 0 ∨ rowGet row.attempts (Val.num 0) = Val.null →
      completion_pct row = Except.ok (Val.num 0) ∧
      yards_per_attempt row = Except.ok (Val.num 0)) ∧
    (rowGet row.completions (Val.num 0) = Val.num 0 ∨ rowGet row.completions (Val.num 0) = Val.null →
      yards_per_completion row = Except.ok (Val.num 0)) ∧
    (rowGet row.carries (Val.num 0) = Val.num 0 ∨ rowGet row.carries (Val.num 0) = Val.null →
      yards_per_carry row = Except.ok (Val.num 0)) ∧
    (rowGet row.targets (Val.num 0) = Val.num 0 ∨ rowGet row.targets (Val.num 0) = Val.null →
      catch_pct row = Except.ok (Val.num 0) ∧
      yards_per_target row = Except.ok (Val.num 0)) ∧
    (rowGet row.receptions (Val.num 0) = Val.num 0 ∨ rowGet row.receptions (Val.num 0) = Val.null →
      yards_per_reception row = Except.ok (Val.num 0)) := by
  refine ⟨fun h => ⟨?_, ?_⟩, fun h => ?_, fun h => ?_, fun h => ⟨?_, ?_⟩, fun h => ?_⟩ <;>
    simp [completion_pct, yards_per_attempt, yards_per_completion, yards_per_carry,
      catch_pct, yards_per_target, yards_per_reception,
      safe_divide_zero_or_null_den _ _ h, pyMulConst]

/-- A concrete row exercising every zero/null-denominator case of C1:
completions and carries are Python `None`, attempts, targets and
receptions are 0. -/
def c1Row : StatRow :=
  ⟨some Val.null, some (Val.num 0), some (Val.num 7), some (Val.num 3), some Val.null,
   some (Val.num 0), some (Val.num 0), some (Val.num 9), Option.none, Option.none, Option.none⟩

/-- Witness for C1 at `c1Row`. -/
theorem derived_ratios_zero_on_zero_or_null_denominator_witness :
    completion_pct c1Row = Except.ok (Val.num 0) ∧
    yards_per_attempt c1Row = Except.ok (Val.num 0) ∧
    yards_per_completion c1Row = Except.ok (Val.num 0) ∧
    yards_per_carry c1Row = Except.ok (Val.num 0) ∧
    catch_pct c1Row = Except.ok (Val.num 0) ∧
    yards_per_target c1Row = Except.ok (Val.num 0) ∧
    yards_per_reception c1Row = Except.ok (Val.num 0) := by
  obtain ⟨h1, h2, h3, h4, h5⟩ := derived_ratios_zero_on_zero_or_null_denominator c1Row
  exact ⟨(h1 (Or.inl rfl)).1, (h1 (Or.inl rfl)).2, h2 (Or.inr rfl), h3 (Or.inr rfl),
    (h4 (Or.inl rfl)).1, (h4 (Or.inl rfl)).2, h5 (Or.inl rfl)⟩

/-! ### C2: derived-ratio formulas on non-zero denominators -/

/-- A DataFrame row in which every stat column is present and numeric;
arguments follow the field order of `StatRow`. -/
def numRow (c a p ry cr rec t rcy g fp fpr : ℚ) : StatRow :=
  ⟨some (Val.num c), some (Val.num a), some (Val.num p), some (Val.num ry), some (Val.num cr),
   some (Val.num rec), some (Val.num t), some (Val.num rcy), some (Val.num g),
   some (Val.num fp), some (Val.num fpr)⟩

/-- The end-to-end scenario mapping of the spec:
{completions:20, attempts:30, passing_yards:250, games_played:5,
fantasy_points:100, fantasy_points_ppr:120}; the other columns are
absent. -/
def scenarioRow : StatRow :=
  ⟨some (Val.num 20), some (Val.num 30), some (Val.num 250), Option.none, Option.none,
   Option.none, Option.none, Option.none, some (Val.num 5), some (Val.num 100),
   some (Val.num 120)⟩

/-- C2: with non-zero numeric denominators each derived ratio equals its
table formula exactly (values are exact rationals in this model), and on
the spec's end-to-end scenario row the engine returns
completion_percentage = 200/3 ≈ 66.67, yards_per_attempt = 25/3 ≈ 8.33,
yards_per_completion = 12.5, fantasy_points_per_game = 20 and
fantasy_points_ppr_per_game = 24. -/
theorem derived_ratio_formulas (c a p ry cr rec t rcy g fp fpr : ℚ)
    (ha : a ≠ 0) (hc : c ≠ 0) (hcr : cr ≠ 0) (ht : t ≠ 0) (hrec : rec ≠ 0) :
    completion_pct (numRow c a p ry cr rec t rcy g fp fpr) = Except.ok (Val.num (100 * (c / a))) ∧
    yards_per_attempt (numRow c a p ry cr rec t rcy g fp fpr) = Except.ok (Val.num (p / a)) ∧
    yards_per_completion (numRow c a p ry cr rec t rcy g fp fpr) = Except.ok (Val.num (p / c)) ∧
    yards_per_carry (numRow c a p ry cr rec t rcy g fp fpr) = Except.ok (Val.num (ry / cr)) ∧
    catch_pct (numRow c a p ry cr rec t rcy g fp fpr) = Except.ok (Val.num (100 * (rec / t))) ∧
    yards_per_target (numRow c a p ry cr rec t rcy g fp fpr) = Except.ok (Val.num (rcy / t)) ∧
    yards_per_reception (numRow c a p ry cr rec t rcy g fp fpr) = Except.ok (Val.num (rcy / rec)) ∧
    completion_pct scenarioRow = Except.ok (Val.num (200 / 3)) ∧
    yards_per_attempt scenarioRow = Except.ok (Val.num (25 / 3)) ∧
    yards_per_completion scenarioRow = Except.ok (Val.num (25 / 2)) ∧
    fantasy_ppg scenarioRow = Except.ok (Val.num 20) ∧
    fantasy_ppr_ppg scenarioRow = Except.ok (Val.num 24) := by
  refine ⟨?_, ?_, ?_, ?_, ?_, ?_, ?_, ?_, ?_, ?_, ?_, ?_⟩
  · simp [completion_pct, numRow, rowGet, safe_divide_num_num _ _ ha, pyMulConst, mul_comm]
  · simp [yards_per_attempt, numRow, rowGet, safe_divide_num_num _ _ ha]
  · simp [yards_per_completion, numRow, rowGet, safe_divide_num_num _ _ hc]
  · simp [yards_per_carry, numRow, rowGet, safe_divide_num_num _ _ hcr]
  · simp [catch_pct, numRow, rowGet, safe_divide_num_num _ _ ht, pyMulConst, mul_comm]
  · simp [yards_per_target, numRow, rowGet, safe_divide_num_num _ _ ht]
  · simp [yards_per_reception, numRow, rowGet, safe_divide_num_num _ _ hrec]
  · rw [completion_pct,
      show rowGet scenarioRow.completions (Val.num 0) = Val.num 20 from rfl,
      show rowGet scenarioRow.attempts (Val.num 0) = Val.num 30 from rfl,
      safe_divide_num_num 20 30 (by norm_num)]
    simp [pyMulConst]
    norm_num
  · rw [yards_per_attempt,
      show rowGet scenarioRow.passing_yards (Val.num 0) = Val.num 250 from rfl,
      show rowGet scenarioRow.attempts (Val.num 0) = Val.num 30 from rfl,
      safe_divide_num_num 250 30 (by norm_num)]
    norm_num
  · rw [yards_per_completion,
      show rowGet scenarioRow.passing_yards (Val.num 0) = Val.num 250 from rfl,
      show rowGet scenarioRow.completions (Val.num 0) = Val.num 20 from rfl,
      safe_divide_num_num 250 20 (by norm_num)]
    norm_num
  · rw [fantasy_ppg, games_played_floored,
      show rowGet scenarioRow.games_played (Val.num 1) = Val.num 5 from rfl,
      show pyMaxOne (Val.num 5) = Except.ok (Val.num (max 5 1)) from rfl,
      max_eq_left (by norm_num : (1 : ℚ) ≤ 5)]
    rw [except_bind_ok,
      show rowGet scenarioRow.fantasy_points (Val.num 0) = Val.num 100 from rfl,
      safe_divide_num_num 100 5 (by norm_num)]
    norm_num
  · rw [fantasy_ppr_ppg, games_played_floored,
      show rowGet scenarioRow.games_played (Val.num 1) = Val.num 5 from rfl,
      show pyMaxOne (Val.num 5) = Except.ok (Val.num (max 5 1)) from rfl,
      max_eq_left (by norm_num : (1 : ℚ) ≤ 5)]
    rw [except_bind_ok,
      show rowGet scenarioRow.fantasy_points_ppr (Val.num 0) = Val.num 120 from rfl,
      safe_divide_num_num 120 5 (by norm_num)]
    norm_num

/-- Witness for C2 at a fully concrete row. -/
theorem derived_ratio_formulas_witness :
    completion_pct (numRow 20 30 250 40 8 10 12 110 5 100 120) = Except.ok (Val.num (100 * (20 / 30))) ∧
    yards_per_attempt (numRow 20 30 250 40 8 10 12 110 5 100 120) = Except.ok (Val.num (250 / 30)) ∧
    yards_per_completion (numRow 20 30 250 40 8 10 12 110 5 100 120) = Except.ok (Val.num (250 / 20)) ∧
    yards_per_carry (numRow 20 30 250 40 8 10 12 110 5 100 120) = Except.ok (Val.num (40 / 8)) ∧
    catch_pct (numRow 20 30 250 40 8 10 12 110 5 100 120) = Except.ok (Val.num (100 * (10 / 12))) ∧
    yards_per_target (numRow 20 30 250 40 8 10 12 110 5 100 120) = Except.ok (Val.num (110 / 12)) ∧
    yards_per_reception (numRow 20 30 250 40 8 10 12 110 5 100 120) = Except.ok (Val.num (110 / 10)) ∧
    completion_pct scenarioRow = Except.ok (Val.num (200 / 3)) ∧
    yards_per_attempt scenarioRow = Except.ok (Val.num (25 / 3)) ∧
    yards_per_completion scenarioRow = Except.ok (Val.num (25 / 2)) ∧
    fantasy_ppg scenarioRow = Except.ok (Val.num 20) ∧
    fantasy_ppr_ppg scenarioRow = Except.ok (Val.num 24) :=
  derived_ratio_formulas 20 30 250 40 8 10 12 110 5 100 120
    (by norm_num) (by norm_num) (by norm_num) (by norm_num) (by norm_num)

/-! ### C4: games_played = 0 and the max(·, 1) floor -/

/-- A row with games_played = 0 but a non-zero fantasy_points total. -/
def gamesZeroRow : StatRow :=
  ⟨Option.none, Option.none, Option.none, Option.none, Option.none, Option.none,
   Option.none, Option.none, some (Val.num 0), some (Val.num 100), some (Val.num 60)⟩

/-- C4 counterexample: on a row with games_played = 0 and
fantasy_points = 100 the code returns fantasy_points_per_game = 100/max(0,1) = 100,
not 0 as the claim states. -/
theorem fantasy_ppg_zero_games_counterexample :
    gamesZeroRow.games_played = some (Val.num 0) ∧
    fantasy_ppg gamesZeroRow = Except.ok (Val.num 100) ∧
    ¬ fantasy_ppg gamesZeroRow = Except.ok (Val.num 0) := by
  have heval : fantasy_ppg gamesZeroRow = Except.ok (Val.num 100) := by
    rw [fantasy_ppg, games_played_floored,
      show rowGet gamesZeroRow.games_played (Val.num 1) = Val.num 0 from rfl,
      show pyMaxOne (Val.num 0) = Except.ok (Val.num (max 0 1)) from rfl,
      max_eq_right (by norm_num : (0 : ℚ) ≤ 1)]
    rw [except_bind_ok,
      show rowGet gamesZeroRow.fantasy_points (Val.num 0) = Val.num 100 from rfl,
      safe_divide_num_num 100 1 (by norm_num)]
    norm_num
  refine ⟨rfl, heval, ?_⟩
  rw [heval]
  intro hcontra
  have : (100 : ℚ) = 0 := Val.num.inj (Except.ok.inj hcontra)
  norm_num at this

/-- C4 amended: for every input with games_played = 0 the per-game
denominator is floored at 1, no division error is raised, and
fantasy_points_per_game equals the fantasy_points total itself — so it
is 0 exactly when fantasy_points is 0, not for every input. -/
theorem fantasy_ppg_zero_games_floor (row : StatRow) (f : ℚ)
    (hg : row.games_played = some (Val.num 0))
    (hf : rowGet row.fantasy_points (Val.num 0) = Val.num f) :
    games_played_floored row = Except.ok (Val.num 1) ∧
    fantasy_ppg row = Except.ok (Val.num f) ∧
    (f = 0 → fantasy_ppg row = Except.ok (Val.num 0)) := by
  have hfloor : games_played_floored row = Except.ok (Val.num 1) := by
    rw [games_played_floored, rowGet, hg,
      show (some (Val.num 0)).getD (Val.num 1) = Val.num 0 from rfl,
      show pyMaxOne (Val.num 0) = Except.ok (Val.num (max 0 1)) from rfl,
      max_eq_right (by norm_num : (0 : ℚ) ≤ 1)]
  have hppg : fantasy_ppg row = Except.ok (Val.num f) := by
    rw [fantasy_ppg, hfloor, except_bind_ok, hf, safe_divide_num_num f 1 (by norm_num)]
    norm_num
  exact ⟨hfloor, hppg, fun hf0 => by rw [hppg, hf0]⟩

/-- Witness for the amended C4 at `gamesZeroRow`. -/
theorem fantasy_ppg_zero_games_floor_witness :
    games_played_floored gamesZeroRow = Except.ok (Val.num 1) ∧
    fantasy_ppg gamesZeroRow = Except.ok (Val.num 100) ∧
    ((100 : ℚ) = 0 → fantasy_ppg gamesZeroRow = Except.ok (Val.num 0)) :=
  fantasy_ppg_zero_games_floor gamesZeroRow 100 rfl rfl

/-! ### C5: totality of the derived-metric computation -/

/-- A row whose completions cell is Python `None` while attempts is a
non-zero number — the shape a null numerator takes. -/
def nullNumeratorRow : StatRow :=
  ⟨some Val.null, some (Val.num 30), Option.none, Option.none, Option.none, Option.none,
   Option.none, Option.none, Option.none, Option.none, Option.none⟩

/-- A row whose completions cell is NaN while attempts is a non-zero
number. -/
def nanNumeratorRow : StatRow :=
  ⟨some Val.nan, some (Val.num 30), Option.none, Option.none, Option.none, Option.none,
   Option.none, Option.none, Option.none, Option.none, Option.none⟩

/-- C5 counterexample: the derived-metric computation of
`convert_to_db_records` is not total — a null (Python `None`) completions
value with attempts = 30 raises a TypeError in `completions / attempts`,
and a NaN completions value yields completion_percentage = NaN, so null
inputs are not all treated as 0 and NaN can be produced. -/
theorem convert_to_db_records_totality_counterexample :
    convertRowDerived nullNumeratorRow = Except.error ("TypeError") ∧
    (convertRowDerived nanNumeratorRow).map DerivedMetrics.completion_percentage =
      Except.ok Val.nan := by
  constructor
  · rw [convertRowDerived, completion_pct,
      show rowGet nullNumeratorRow.completions (Val.num 0) = Val.null from rfl,
      show rowGet nullNumeratorRow.attempts (Val.num 0) = Val.num 30 from rfl,
      safe_divide_null_num 30 (by norm_num)]
    rfl
  · simp [convertRowDerived, completion_pct, yards_per_attempt, yards_per_completion,
      yards_per_carry, catch_pct, yards_per_target, yards_per_reception, fantasy_ppg,
      fantasy_ppr_ppg, games_played_floored, nanNumeratorRow, rowGet, safe_divide,
      pyMulConst, pyMaxOne, Except.map]

/-- Wraps a cell that is either missing or an ordinary number (never
Python `None` and never NaN). -/
def qval (o : Option ℚ) : Option Val :=
  o.map Val.num

/-- A DataFrame row every present cell of which is numeric; arguments
follow the field order of `StatRow`. -/
def qRow (c a p ry cr rec t rcy g fp fpr : Option ℚ) : StatRow :=
  ⟨qval c, qval a, qval p, qval ry, qval cr, qval rec, qval t, qval rcy, qval g,
   qval fp, qval fpr⟩

lemma rowGet_qval (o : Option ℚ) (k : ℚ) :
    rowGet (qval o) (Val.num k) = Val.num (o.getD k) := by
  cases o <;> rfl

/-- The zero-safe quotient that `safe_divide` computes on two ordinary
numbers. -/
def sdq (p q : ℚ) : ℚ :=
  if q = 0 then 0 else p / q

/-- C5 amended: the derived-metric computation of `convert_to_db_records`
is deterministic, and on every row whose present cells are ordinary
numbers it never raises and every derived value is a number (never
null/NaN), missing cells being defaulted by `row.get`; the original
claim's null-as-0 and never-NaN guarantees fail for null and NaN cells
(see the counterexample). -/
theorem convert_to_db_records_total_on_numeric_rows
    (c a p ry cr rec t rcy g fp fpr : Option ℚ) :
    ∃ d : DerivedMetrics,
      convertRowDerived (qRow c a p ry cr rec t rcy g fp fpr) = Except.ok d ∧
      d.completion_percentage.isNum = true ∧
      d.yards_per_attempt.isNum = true ∧
      d.yards_per_completion.isNum = true ∧
      d.yards_per_carry.isNum = true ∧
      d.catch_percentage.isNum = true ∧
      d.yards_per_target.isNum = true ∧
      d.yards_per_reception.isNum = true ∧
      d.fantasy_points_per_game.isNum = true ∧
      d.fantasy_points_ppr_per_game.isNum = true := by
  refine ⟨⟨Val.num (sdq (c.getD 0) (a.getD 0) * 100),
    Val.num (sdq (p.getD 0) (a.getD 0)),
    Val.num (sdq (p.getD 0) (c.getD 0)),
    Val.num (sdq (ry.getD 0) (cr.getD 0)),
    Val.num (sdq (rec.getD 0) (t.getD 0) * 100),
    Val.num (sdq (rcy.getD 0) (t.getD 0)),
    Val.num (sdq (rcy.getD 0) (rec.getD 0)),
    Val.num (sdq (fp.getD 0) (max (g.getD 1) 1)),
    Val.num (sdq (fpr.getD 0) (max (g.getD 1) 1))⟩,
    ?_, rfl, rfl, rfl, rfl, rfl, rfl, rfl, rfl, rfl⟩
  simp [convertRowDerived, completion_pct, yards_per_attempt, yards_per_completion,
    yards_per_carry, catch_pct, yards_per_target, yards_per_reception, fantasy_ppg,
    fantasy_ppr_ppg, games_played_floored, qRow, rowGet_qval, safe_divide_num_num_eq,
    pyMulConst, pyMaxOne, sdq]

/-!
### The weekly-to-seasonal reducer (`calculate_from_weekly_data`, lines 108-226)

One stored `NFLWeeklyStats` row.  `week` is part of the table's primary
key, hence never null; the raw counting stats and the three share
metrics are nullable columns.  The model's team column is named
`recent_team` (models/__init__.py line 243; add_weekly_columns.py
renamed the old `team` column away) — the model has NO `team`
attribute, which is what breaks the aggregation query below.
-/

/-- A stored weekly row.  Field order: the five identity columns,
recent_team, week, then the stat columns in the order of the
aggregation query. -/
structure WRow where
  player_id : String := ("")
  player_name : String := ("")
  player_display_name : String := ("")
  position : String := ("")
  position_group : String := ("")
  recent_team : String := ("")
  week : ℤ := 0
  completions : Option ℚ := Option.none
  attempts : Option ℚ := Option.none
  passing_yards : Option ℚ := Option.none
  passing_tds : Option ℚ := Option.none
  interceptions : Option ℚ := Option.none
  sacks : Option ℚ := Option.none
  sack_yards : Option ℚ := Option.none
  passing_air_yards : Option ℚ := Option.none
  passing_yards_after_catch : Option ℚ := Option.none
  passing_first_downs : Option ℚ := Option.none
  passing_epa : Option ℚ := Option.none
  passing_2pt_conversions : Option ℚ := Option.none
  carries : Option ℚ := Option.none
  rushing_yards : Option ℚ := Option.none
  rushing_tds : Option ℚ := Option.none
  rushing_fumbles : Option ℚ := Option.none
  rushing_fumbles_lost : Option ℚ := Option.none
  rushing_first_downs : Option ℚ := Option.none
  rushing_epa : Option ℚ := Option.none
  rushing_2pt_conversions : Option ℚ := Option.none
  targets : Option ℚ := Option.none
  receptions : Option ℚ := Option.none
  receiving_yards : Option ℚ := Option.none
  receiving_tds : Option ℚ := Option.none
  receiving_fumbles : Option ℚ := Option.none
  receiving_fumbles_lost : Option ℚ := Option.none
  receiving_air_yards : Option ℚ := Option.none
  receiving_yards_after_catch : Option ℚ := Option.none
  receiving_first_downs : Option ℚ := Option.none
  receiving_epa : Option ℚ := Option.none
  receiving_2pt_conversions : Option ℚ := Option.none
  special_teams_tds : Option ℚ := Option.none
  fantasy_points : Option ℚ := Option.none
  fantasy_points_ppr : Option ℚ := Option.none
  target_share : Option ℚ := Option.none
  air_yards_share : Option ℚ := Option.none
  wopr : Option ℚ := Option.none

/-- The GROUP BY key of the aggregation query (lines 170-176):
player_id, player_name, player_display_name, position, position_group. -/
structure GroupKey where
  player_id : String
  player_name : String
  player_display_name : String
  position : String
  position_group : String
deriving DecidableEq, Repr

/-- The grouping key of one weekly row. -/
def wkey (r : WRow) : GroupKey :=
  ⟨r.player_id, r.player_name, r.player_display_name, r.position, r.position_group⟩

/-- SQL `SUM` over one column of a group: nulls contribute nothing, and
a group with only nulls sums to NULL. -/
def sqlSum : List (Option ℚ) → Option ℚ
  | [] => Option.none
  | Option.none :: rest => sqlSum rest
  | some q :: rest => some (q + ((sqlSum rest).getD 0))

/-- SQL `AVG` over one column of a group: the mean of the non-null
values, NULL when every value is null. -/
def sqlAvg (l : List (Option ℚ)) : Option ℚ :=
  if l.filterMap id = [] then Option.none
  else some ((l.filterMap id).sum / ((l.filterMap id).length : ℚ))

/-- SQL `MAX` over the (non-null) team strings of a group, under the
lexicographic string order. -/
def maxTeam : List String → String
  | [] => ""
  | [t] => t
  | t :: rest => max t (maxTeam rest)

/-- Python `x or 0` applied to a nullable SQL aggregate (lines 187-220):
`None` becomes 0, a number stays itself. -/
def orZero (o : Option ℚ) : ℚ :=
  o.getD 0

/-- A summed stat column of the DataFrame built on lines 179-224:
`SUM` over the group, then `or 0`. -/
def sumCol (rows : List WRow) (f : WRow → Option ℚ) : ℚ :=
  orZero (sqlSum (rows.map f))

/-- An averaged stat column of the DataFrame (lines 221-223): `AVG` over
the group, kept nullable. -/
def avgCol (rows : List WRow) (f : WRow → Option ℚ) : Option ℚ :=
  sqlAvg (rows.map f)

/-- One row of the DataFrame the aggregation query of
`calculate_from_weekly_data` is written to produce: the identity
columns, the lexicographic-max team, `games_played` as the group's row
count (`COUNT(week)`, with `week` non-null), the summed counting stats
with `or 0` applied, and the three averaged share metrics, in source
order.  The program never actually produces one — see
`calculate_from_weekly_data` below. -/
structure SeasonAgg where
  player_id : String
  player_name : String
  player_display_name : String
  position : String
  position_group : String
  team : String
  games_played : ℕ
  completions : ℚ
  attempts : ℚ
  passing_yards : ℚ
  passing_tds : ℚ
  interceptions : ℚ
  sacks : ℚ
  sack_yards : ℚ
  passing_air_yards : ℚ
  passing_yards_after_catch : ℚ
  passing_first_downs : ℚ
  passing_epa : ℚ
  passing_2pt_conversions : ℚ
  carries : ℚ
  rushing_yards : ℚ
  rushing_tds : ℚ
  rushing_fumbles : ℚ
  rushing_fumbles_lost : ℚ
  rushing_first_downs : ℚ
  rushing_epa : ℚ
  rushing_2pt_conversions : ℚ
  targets : ℚ
  receptions : ℚ
  receiving_yards : ℚ
  receiving_tds : ℚ
  receiving_fumbles : ℚ
  receiving_fumbles_lost : ℚ
  receiving_air_yards : ℚ
  receiving_yards_after_catch : ℚ
  receiving_first_downs : ℚ
  receiving_epa : ℚ
  receiving_2pt_conversions : ℚ
  special_teams_tds : ℚ
  fantasy_points : ℚ
  fantasy_points_ppr : ℚ
  target_share : Option ℚ
  air_yards_share : Option ℚ
  wopr : Option ℚ

/-- Aggregation of one group of weekly rows under its key, as the
query's SELECT list specifies it; its team aggregate ranges over the
stored team codes, which live in the model's `recent_team` column (the
query's `NFLWeeklyStats.team` reference does not resolve — see
`calculate_from_weekly_data`). -/
def aggregateGroup (k : GroupKey) (rows : List WRow) : SeasonAgg :=
  ⟨k.player_id, k.player_name, k.player_display_name, k.position, k.position_group,
   maxTeam (rows.map WRow.recent_team), rows.length,
   sumCol rows WRow.completions, sumCol rows WRow.attempts,
   sumCol rows WRow.passing_yards, sumCol rows WRow.passing_tds,
   sumCol rows WRow.interceptions, sumCol rows WRow.sacks,
   sumCol rows WRow.sack_yards, sumCol rows WRow.passing_air_yards,
   sumCol rows WRow.passing_yards_after_catch, sumCol rows WRow.passing_first_downs,
   sumCol rows WRow.passing_epa, sumCol rows WRow.passing_2pt_conversions,
   sumCol rows WRow.carries, sumCol rows WRow.rushing_yards,
   sumCol rows WRow.rushing_tds, sumCol rows WRow.rushing_fumbles,
   sumCol rows WRow.rushing_fumbles_lost, sumCol rows WRow.rushing_first_downs,
   sumCol rows WRow.rushing_epa, sumCol rows WRow.rushing_2pt_conversions,
   sumCol rows WRow.targets, sumCol rows WRow.receptions,
   sumCol rows WRow.receiving_yards, sumCol rows WRow.receiving_tds,
   sumCol rows WRow.receiving_fumbles, sumCol rows WRow.receiving_fumbles_lost,
   sumCol rows WRow.receiving_air_yards, sumCol rows WRow.receiving_yards_after_catch,
   sumCol rows WRow.receiving_first_downs, sumCol rows WRow.receiving_epa,
   sumCol rows WRow.receiving_2pt_conversions, sumCol rows WRow.special_teams_tds,
   sumCol rows WRow.fantasy_points, sumCol rows WRow.fantasy_points_ppr,
   avgCol rows WRow.target_share, avgCol rows WRow.air_yards_share,
   avgCol rows WRow.wopr⟩

/-- The grouping and reduction the aggregation query's text specifies
(lines 113-226): one aggregated row per distinct grouping key.  This is
only the semantics the query was written to compute — the program never
reaches it, because building the query raises first (see
`calculate_from_weekly_data`). -/
def aggregateQuery (rows : List WRow) : List SeasonAgg :=
  ((rows.map wkey).dedup).map
    (fun k => aggregateGroup k (rows.filter (fun r => decide (wkey r = k))))

/-- The column attributes the `NFLWeeklyStats` model actually declares
(models/__init__.py lines 228-305).  Note `recent_team` — there is no
`team` attribute. -/
def nflWeeklyStatsColumns : List String :=
  [("player_id"), ("season"), ("week"), ("player_name"), ("player_display_name"),
   ("position"), ("position_group"), ("recent_team"), ("headshot_url"),
   ("opponent_team"), ("season_type"), ("completions"), ("attempts"),
   ("passing_yards"), ("passing_tds"), ("interceptions"), ("sacks"), ("sack_yards"),
   ("sack_fumbles"), ("sack_fumbles_lost"), ("passing_air_yards"),
   ("passing_yards_after_catch"), ("passing_first_downs"), ("passing_epa"),
   ("passing_2pt_conversions"), ("carries"), ("rushing_yards"), ("rushing_tds"),
   ("rushing_fumbles"), ("rushing_fumbles_lost"), ("rushing_first_downs"),
   ("rushing_epa"), ("rushing_2pt_conversions"), ("targets"), ("receptions"),
   ("receiving_yards"), ("receiving_tds"), ("receiving_fumbles"),
   ("receiving_fumbles_lost"), ("receiving_air_yards"),
   ("receiving_yards_after_catch"), ("receiving_first_downs"), ("receiving_epa"),
   ("receiving_2pt_conversions"), ("special_teams_tds"), ("fantasy_points"),
   ("fantasy_points_ppr"), ("target_share"), ("air_yards_share"), ("wopr"),
   ("pacr"), ("racr"), ("dakota"), ("created_at"), ("updated_at")]

/-- Python attribute access `NFLWeeklyStats.<name>`: the attribute when
the model declares it, an AttributeError otherwise. -/
def queryColumn (name : String) : Except String String :=
  if name ∈ nflWeeklyStatsColumns then Except.ok name
  else Except.error (("AttributeError: ") ++ name)

/-- Embedding of `calculate_from_weekly_data` (lines 108-226) for one
season's weekly rows.  Building the query evaluates
`func.max(NFLWeeklyStats.team)` (line 119), but the model has
`recent_team` and no `team` attribute, so every call raises
AttributeError before any row is read; the aggregation the query
specifies is never reached. -/
def calculate_from_weekly_data (rows : List WRow) : Except String (List SeasonAgg) := do
  let _ ← queryColumn ("team")
  pure (aggregateQuery rows)

/-- The grouping key carried by an aggregated row. -/
def aggKey (s : SeasonAgg) : GroupKey :=
  ⟨s.player_id, s.player_name, s.player_display_name, s.position, s.position_group⟩

/-- The aggregated DataFrame row as `convert_to_db_records` reads it:
every stat column present and numeric (the sums carry `or 0`), with
`games_played` the group's row count. -/
def aggToStatRow (s : SeasonAgg) : StatRow :=
  ⟨some (Val.num s.completions), some (Val.num s.attempts), some (Val.num s.passing_yards),
   some (Val.num s.rushing_yards), some (Val.num s.carries), some (Val.num s.receptions),
   some (Val.num s.targets), some (Val.num s.receiving_yards),
   some (Val.num (s.games_played : ℚ)), some (Val.num s.fantasy_points),
   some (Val.num s.fantasy_points_ppr)⟩

/-! ### C3: the weekly-to-seasonal reduction (a code bug) -/

@[simp] lemma except_bind_error {α β : Type} (e : String) (f : α → Except String β) :
    (Except.error e >>= f : Except String β) = Except.error e := rfl

lemma weekly_team_lookup_fails :
    queryColumn ("team") = Except.error (("AttributeError: ") ++ ("team")) := by
  rw [queryColumn, if_neg (by simp [nflWeeklyStatsColumns])]

lemma calculate_from_weekly_data_error (rows : List WRow) :
    calculate_from_weekly_data rows = Except.error (("AttributeError: ") ++ ("team")) := by
  rw [calculate_from_weekly_data, weekly_team_lookup_fails]
  rfl

/-- The grouping key of the three-row example below. -/
def mahomesKey : GroupKey :=
  ⟨("00-0033873"), ("P.Mahomes"), ("Patrick Mahomes"), ("QB"), ("QB")⟩

/-- Week 1 of the spec's reduction example: passing_yards 100, attempts 10. -/
def wk1Row : WRow :=
  { player_id := ("00-0033873"), player_name := ("P.Mahomes"),
    player_display_name := ("Patrick Mahomes"), position := ("QB"),
    position_group := ("QB"), recent_team := ("KC"), week := 1,
    attempts := some 10, passing_yards := some 100 }

/-- Week 2 of the spec's reduction example: passing_yards 150, attempts 15. -/
def wk2Row : WRow :=
  { player_id := ("00-0033873"), player_name := ("P.Mahomes"),
    player_display_name := ("Patrick Mahomes"), position := ("QB"),
    position_group := ("QB"), recent_team := ("KC"), week := 2,
    attempts := some 15, passing_yards := some 150 }

/-- Week 3 of the spec's reduction example: passing_yards 0, attempts 0. -/
def wk3Row : WRow :=
  { player_id := ("00-0033873"), player_name := ("P.Mahomes"),
    player_display_name := ("Patrick Mahomes"), position := ("QB"),
    position_group := ("QB"), recent_team := ("KC"), week := 3,
    attempts := some 0, passing_yards := some 0 }

/-- C3 (code bug): the weekly-to-seasonal reducer never reduces
anything.  The `NFLWeeklyStats` model declares `recent_team` and no
`team` attribute, so `calculate_from_weekly_data` raises AttributeError
at `func.max(NFLWeeklyStats.team)` (line 119) while building its
aggregation query, for every input — including the spec's three-row
example.  The final conjuncts evaluate the reduction the query's text
specifies (the claimed passing_yards 250, attempts 25, games_played 3,
yards_per_attempt 10), which the program cannot reach. -/
theorem calculate_from_weekly_data_raises (rows : List WRow) :
    ("team") ∉ nflWeeklyStatsColumns ∧
    ("recent_team") ∈ nflWeeklyStatsColumns ∧
    calculate_from_weekly_data rows = Except.error (("AttributeError: ") ++ ("team")) ∧
    calculate_from_weekly_data [wk1Row, wk2Row, wk3Row] =
      Except.error (("AttributeError: ") ++ ("team")) ∧
    aggregateQuery [wk1Row, wk2Row, wk3Row] =
      [aggregateGroup mahomesKey [wk1Row, wk2Row, wk3Row]] ∧
    (aggregateGroup mahomesKey [wk1Row, wk2Row, wk3Row]).passing_yards = 250 ∧
    (aggregateGroup mahomesKey [wk1Row, wk2Row, wk3Row]).attempts = 25 ∧
    (aggregateGroup mahomesKey [wk1Row, wk2Row, wk3Row]).games_played = 3 ∧
    yards_per_attempt (aggToStatRow (aggregateGroup mahomesKey [wk1Row, wk2Row, wk3Row])) =
      Except.ok (Val.num 10) := by
  have hpy : (aggregateGroup mahomesKey [wk1Row, wk2Row, wk3Row]).passing_yards = 250 := by
    rw [show (aggregateGroup mahomesKey [wk1Row, wk2Row, wk3Row]).passing_yards =
        orZero (sqlSum ([wk1Row, wk2Row, wk3Row].map WRow.passing_yards)) from rfl,
      show ([wk1Row, wk2Row, wk3Row].map WRow.passing_yards) =
        [some (100 : ℚ), some 150, some 0] from rfl,
      show orZero (sqlSum [some (100 : ℚ), some 150, some 0]) =
        100 + (150 + (0 + 0)) from rfl]
    norm_num
  have hatt : (aggregateGroup mahomesKey [wk1Row, wk2Row, wk3Row]).attempts = 25 := by
    rw [show (aggregateGroup mahomesKey [wk1Row, wk2Row, wk3Row]).attempts =
        orZero (sqlSum ([wk1Row, wk2Row, wk3Row].map WRow.attempts)) from rfl,
      show ([wk1Row, wk2Row, wk3Row].map WRow.attempts) =
        [some (10 : ℚ), some 15, some 0] from rfl,
      show orZero (sqlSum [some (10 : ℚ), some 15, some 0]) =
        10 + (15 + (0 + 0)) from rfl]
    norm_num
  have hagg : aggregateQuery [wk1Row, wk2Row, wk3Row] =
      [aggregateGroup mahomesKey [wk1Row, wk2Row, wk3Row]] := by
    rw [aggregateQuery,
      show ([wk1Row, wk2Row, wk3Row].map wkey) = [mahomesKey, mahomesKey, mahomesKey] from rfl,
      List.dedup_cons_of_mem (by simp), List.dedup_cons_of_mem (by simp),
      List.dedup_cons_of_not_mem (List.not_mem_nil _), List.dedup_nil,
      List.map_singleton]
    have hfil : [wk1Row, wk2Row, wk3Row].filter (fun r => decide (wkey r = mahomesKey)) =
        [wk1Row, wk2Row, wk3Row] := by
      simp [List.filter, wkey, wk1Row, wk2Row, wk3Row, mahomesKey]
    rw [hfil]
  have hypa : yards_per_attempt (aggToStatRow (aggregateGroup mahomesKey [wk1Row, wk2Row, wk3Row])) =
      Except.ok (Val.num 10) := by
    rw [yards_per_attempt,
      show rowGet (aggToStatRow (aggregateGroup mahomesKey [wk1Row, wk2Row, wk3Row])).passing_yards
          (Val.num 0) =
        Val.num (aggregateGroup mahomesKey [wk1Row, wk2Row, wk3Row]).passing_yards from rfl,
      show rowGet (aggToStatRow (aggregateGroup mahomesKey [wk1Row, wk2Row, wk3Row])).attempts
          (Val.num 0) =
        Val.num (aggregateGroup mahomesKey [wk1Row, wk2Row, wk3Row]).attempts from rfl,
      hpy, hatt, safe_divide_num_num 250 25 (by norm_num)]
    norm_num
  exact ⟨by simp [nflWeeklyStatsColumns], by simp [nflWeeklyStatsColumns],
    calculate_from_weekly_data_error rows, calculate_from_weekly_data_error _,
    hagg, hpy, hatt, rfl, hypa⟩

/-! ### C6: one output row per player? -/

/-- Week 1 for a player recorded under the name `A.Smith`. -/
def cwARow : WRow :=
  { player_id := ("00-0099001"), player_name := ("A.Smith"),
    player_display_name := ("Adam Smith"), position := ("WR"),
    position_group := ("WR"), recent_team := ("SF"), week := 1,
    receiving_yards := some 50 }

/-- Week 2 for the same player_id recorded under the name `Ad.Smith`. -/
def cwBRow : WRow :=
  { player_id := ("00-0099001"), player_name := ("Ad.Smith"),
    player_display_name := ("Adam Smith"), position := ("WR"),
    position_group := ("WR"), recent_team := ("SF"), week := 2,
    receiving_yards := some 60 }

/-- C6 counterexample: at a concrete two-row input the reducer produces
no season row at all — the call raises AttributeError on the missing
`team` attribute — so it does not produce exactly one record per
(player_id, season); and the grouping its query specifies, which groups
by player_id AND the identity columns, would map this player_id to two
output rows, since the rows disagree on player_name. -/
theorem one_record_per_player_counterexample :
    calculate_from_weekly_data [cwARow, cwBRow] =
      Except.error (("AttributeError: ") ++ ("team")) ∧
    (aggregateQuery [cwARow, cwBRow]).map SeasonAgg.player_id =
      [("00-0099001"), ("00-0099001")] ∧
    cwARow.player_id = cwBRow.player_id ∧
    cwARow.player_name ≠ cwBRow.player_name := by
  have hd : (([cwARow, cwBRow].map wkey).dedup) = [wkey cwARow, wkey cwBRow] := by
    rw [show ([cwARow, cwBRow].map wkey) = [wkey cwARow, wkey cwBRow] from rfl,
      List.dedup_cons_of_not_mem (by simp [wkey, cwARow, cwBRow]),
      List.dedup_cons_of_not_mem (List.not_mem_nil _), List.dedup_nil]
  refine ⟨calculate_from_weekly_data_error _, ?_, rfl, by simp [cwARow, cwBRow]⟩
  rw [aggregateQuery, hd]
  rfl

/-- C6 amended: the reducer as written never produces any season row —
every call raises AttributeError on the missing `team` attribute of
`NFLWeeklyStats`; moreover the query it attempts groups by (player_id,
player_name, player_display_name, position, position_group), so its
specified reduction yields exactly one row per distinct identity key,
and a player_id stays in at most one output row only when all its
weekly rows agree on the identity columns. -/
theorem one_record_per_identity_group (rows : List WRow) :
    calculate_from_weekly_data rows = Except.error (("AttributeError: ") ++ ("team")) ∧
    (aggregateQuery rows).map aggKey = (rows.map wkey).dedup ∧
    ((aggregateQuery rows).map aggKey).Nodup ∧
    ((∀ r1 ∈ rows, ∀ r2 ∈ rows, r1.player_id = r2.player_id → wkey r1 = wkey r2) →
      ((aggregateQuery rows).map SeasonAgg.player_id).Nodup) := by
  have h1 : (aggregateQuery rows).map aggKey = (rows.map wkey).dedup := by
    rw [aggregateQuery, List.map_map]
    exact List.map_id _
  refine ⟨calculate_from_weekly_data_error rows, h1, h1 ▸ List.nodup_dedup _, fun hid => ?_⟩
  have h2 : (aggregateQuery rows).map SeasonAgg.player_id =
      ((rows.map wkey).dedup).map GroupKey.player_id := by
    rw [← h1, List.map_map]
    rfl
  rw [h2]
  refine List.Nodup.map_on ?_ (List.nodup_dedup _)
  intro k1 hk1 k2 hk2 hpid
  obtain ⟨r1, hr1, rfl⟩ := List.mem_map.mp (List.mem_dedup.mp hk1)
  obtain ⟨r2, hr2, rfl⟩ := List.mem_map.mp (List.mem_dedup.mp hk2)
  exact hid r1 hr1 r2 hr2 hpid

/-- A single weekly row used to witness the amended C6. -/
def cwSoloRow : WRow :=
  { player_id := ("00-0012345"), player_name := ("J.Doe"),
    player_display_name := ("Jane Doe"), position := ("RB"),
    position_group := ("RB"), recent_team := ("DAL"), week := 1,
    rushing_yards := some 80 }

/-- Witness for the amended C6 at a one-row input. -/
theorem one_record_per_identity_group_witness :
    ((aggregateQuery [cwSoloRow]).map SeasonAgg.player_id).Nodup :=
  (one_record_per_identity_group [cwSoloRow]).2.2.2 (by
    intro r1 h1 r2 h2 _
    rw [List.mem_singleton.mp h1, List.mem_singleton.mp h2])

/-!
### The idempotent batch loaders (`load_seasonal_stats` lines 25-99,
`load_weekly_stats` lines 25-163)

The database is a list of stored rows; a stored row is its season key
plus an opaque payload.  The effects of one run are parameterised by an
environment: `fetch` returns the season's converted batch or the
exception raised while fetching/converting it (network failure, empty
data is a separate in-band case, conversion error), and `insertFails`
says whether the bulk insert + commit of that season's batch raises a
database error.  A raised exception is caught by the per-season
`except` handler, the session is rolled back (the uncommitted batch is
discarded), and the loop continues.
-/

/-- One stored row: its season key and an opaque payload standing for
the rest of the record. -/
structure SRow where
  season : ℤ
  payload : ℕ
deriving DecidableEq, Repr

/-- The external effects of one loader run. -/
structure LoaderEnv where
  fetch : ℤ → Except Unit (List ℕ)
  insertFails : ℤ → Bool

/-- Embeds `session.query(...).filter(season == s).count()`. -/
def seasonCount (db : List SRow) (s : ℤ) : ℕ :=
  (db.filter (fun r => decide (r.season = s))).length

/-- The force-reload delete phase (lines 44-49): delete every row whose
season is among the requested seasons, then commit. -/
def deletePhase (db : List SRow) (seasons : List ℤ) : List SRow :=
  db.filter (fun r => decide (r.season ∉ seasons))

/-- Embeds that `convert_to_db_records(data, season)` stamps every record of the
batch with the season being processed. -/
def mkRows (s : ℤ) (batch : List ℕ) : List SRow :=
  batch.map (fun p => ⟨s, p⟩)

/-- The body of the per-season loop (lines 51-90): skip when rows exist
and force_reload is false; otherwise fetch and convert (an exception
leaves the database unchanged), skip empty data, and bulk-insert and
commit the batch (a database error is rolled back, leaving the database
unchanged). -/
def processSeason (env : LoaderEnv) (forceReload : Bool) (db : List SRow) (s : ℤ) : List SRow :=
  if 0 < seasonCount db s ∧ forceReload = false then db
  else
    match env.fetch s with
    | Except.error _ => db
    | Except.ok batch =>
        if batch.isEmpty then db
        else if env.insertFails s then db
        else db ++ mkRows s batch

/-- The per-season loop over the requested seasons. -/
def runSeasons (env : LoaderEnv) (forceReload : Bool) (db : List SRow)
    (seasons : List ℤ) : List SRow :=
  seasons.foldl (processSeason env forceReload) db

/-- Embedding of `load_seasonal_stats(seasons, force_reload)` acting on the stored
seasonal rows: the optional delete phase, then the per-season loop. -/
def load_seasonal_stats (env : LoaderEnv) (seasons : List ℤ) (forceReload : Bool)
    (db : List SRow) : List SRow :=
  runSeasons env forceReload (if forceReload then deletePhase db seasons else db) seasons

/-- Embedding of `load_weekly_stats(seasons, force_reload)` acting on the stored
weekly rows: identical control flow (load_weekly_stats.py lines 43-154),
with `fetch` covering download + cleaning + record construction. -/
def load_weekly_stats (env : LoaderEnv) (seasons : List ℤ) (forceReload : Bool)
    (db : List SRow) : List SRow :=
  runSeasons env forceReload (if forceReload then deletePhase db seasons else db) seasons

/-! ### Loader lemmas -/

lemma processSeason_skip (env : LoaderEnv) (db : List SRow) (s : ℤ)
    (h : 0 < seasonCount db s) : processSeason env false db s = db := by
  rw [processSeason, if_pos ⟨h, rfl⟩]

lemma runSeasons_skip (env : LoaderEnv) (db : List SRow) :
    ∀ seasons : List ℤ, (∀ s ∈ seasons, 0 < seasonCount db s) →
      runSeasons env false db seasons = db
  | [], _ => rfl
  | s :: rest, h => by
      rw [runSeasons, List.foldl_cons, processSeason_skip env db s (h s (List.mem_cons_self _ _))]
      exact runSeasons_skip env db rest (fun t ht => h t (List.mem_cons_of_mem _ ht))

lemma seasonCount_append (db1 db2 : List SRow) (s : ℤ) :
    seasonCount (db1 ++ db2) s = seasonCount db1 s + seasonCount db2 s := by
  rw [seasonCount, seasonCount, seasonCount, List.filter_append, List.length_append]

lemma seasonCount_mkRows_self (s : ℤ) (batch : List ℕ) :
    seasonCount (mkRows s batch) s = batch.length := by
  induction batch with
  | nil => rfl
  | cons b bs ih =>
      rw [mkRows, List.map_cons, seasonCount, List.filter_cons]
      simp only [decide_eq_true_eq]
      rw [if_pos trivial, List.length_cons]
      rw [show (List.map (fun p => (⟨s, p⟩ : SRow)) bs) = mkRows s bs from rfl]
      rw [show ((mkRows s bs).filter (fun r => decide (r.season = s))).length =
        seasonCount (mkRows s bs) s from rfl, ih]
      rfl

lemma seasonCount_mkRows_ne (s t : ℤ) (batch : List ℕ) (h : t ≠ s) :
    seasonCount (mkRows t batch) s = 0 := by
  induction batch with
  | nil => rfl
  | cons b bs ih =>
      rw [mkRows, List.map_cons, seasonCount, List.filter_cons]
      simp only [decide_eq_true_eq]
      rw [if_neg h]
      exact ih

lemma processSeason_seasonCount_ne (env : LoaderEnv) (force : Bool) (db : List SRow)
    (s t : ℤ) (h : t ≠ s) :
    seasonCount (processSeason env force db t) s = seasonCount db s := by
  rw [processSeason]
  split
  · rfl
  · cases hfe : env.fetch t with
    | error e => rfl
    | ok batch =>
        cases batch with
        | nil => rfl
        | cons b bs =>
            show seasonCount (if (List.isEmpty (b :: bs)) = true then db
              else if env.insertFails t = true then db else db ++ mkRows t (b :: bs)) s =
              seasonCount db s
            rw [show (List.isEmpty (b :: bs)) = false from rfl,
              if_neg Bool.false_ne_true]
            by_cases hins : env.insertFails t = true
            · rw [if_pos hins]
            · rw [if_neg hins, seasonCount_append, seasonCount_mkRows_ne s t (b :: bs) h]
              exact Nat.add_zero _

lemma runSeasons_seasonCount_not_mem (env : LoaderEnv) (force : Bool) (s : ℤ) :
    ∀ (seasons : List ℤ) (db : List SRow), s ∉ seasons →
      seasonCount (runSeasons env force db seasons) s = seasonCount db s
  | [], _, _ => rfl
  | t :: rest, db, hs => by
      rw [runSeasons, List.foldl_cons]
      rw [show List.foldl (processSeason env force) (processSeason env force db t) rest =
        runSeasons env force (processSeason env force db t) rest from rfl]
      rw [runSeasons_seasonCount_not_mem env force s rest _
          (fun hmem => hs (List.mem_cons_of_mem _ hmem)),
        processSeason_seasonCount_ne env force db s t
          (fun heq => hs (heq ▸ List.mem_cons_self _ _))]

lemma seasonCount_deletePhase_mem (db : List SRow) (seasons : List ℤ) (s : ℤ)
    (h : s ∈ seasons) : seasonCount (deletePhase db seasons) s = 0 := by
  induction db with
  | nil => rfl
  | cons r t ih =>
      rw [deletePhase, List.filter_cons]
      by_cases hr : r.season ∉ seasons
      · rw [if_pos (by simpa using hr), seasonCount, List.filter_cons]
        have hne : ¬ r.season = s := fun heq => hr (heq ▸ h)
        simp only [decide_eq_true_eq]
        rw [if_neg hne]
        exact ih
      · rw [if_neg (by simpa using hr)]
        exact ih

/-! ### C7: skip-if-exists idempotence -/

/-- C7: running either loader with force_reload = false over a state in
which rows already exist for every requested season skips each season
entirely (the per-season step returns the database unchanged), leaves
the stored rows — hence every row count — unchanged, and raises no
error (the run is a total function into an unchanged state). -/
theorem loader_skip_idempotent (env : LoaderEnv) (seasons : List ℤ) (db : List SRow)
    (h : ∀ s ∈ seasons, 0 < seasonCount db s) :
    (∀ s ∈ seasons, processSeason env false db s = db) ∧
    load_seasonal_stats env seasons false db = db ∧
    load_weekly_stats env seasons false db = db := by
  refine ⟨fun s hs => processSeason_skip env db s (h s hs), ?_, ?_⟩ <;>
    exact runSeasons_skip env db seasons h

/-- A store that already holds rows for seasons 2023 and 2024. -/
def demoDb : List SRow :=
  [⟨2023, 0⟩, ⟨2024, 1⟩, ⟨2024, 2⟩]

/-- An environment whose fetch would deliver fresh rows for any season. -/
def demoEnv : LoaderEnv :=
  ⟨fun _ => Except.ok [10, 11], fun _ => false⟩

/-- Witness for C7: a second run over already-loaded seasons changes
nothing. -/
theorem loader_skip_idempotent_witness :
    load_seasonal_stats demoEnv [2023, 2024] false demoDb = demoDb ∧
    load_weekly_stats demoEnv [2023, 2024] false demoDb = demoDb :=
  ⟨(loader_skip_idempotent demoEnv [2023, 2024] demoDb (by decide)).2.1,
   (loader_skip_idempotent demoEnv [2023, 2024] demoDb (by decide)).2.2⟩

/-! ### C8: force-reload replacement -/

/-- C8: with force_reload = true, a requested season's existing rows are
deleted up front and the freshly fetched batch inserted, so afterwards
the row count for that season equals exactly the new batch's size
(replacement, not append) — for any prior contents of the store. -/
theorem force_reload_replaces (env : LoaderEnv) (seasons : List ℤ) (db : List SRow)
    (s : ℤ) (batch : List ℕ) (hnd : seasons.Nodup) (hs : s ∈ seasons)
    (hfetch : env.fetch s = Except.ok batch) (hins : env.insertFails s = false) :
    seasonCount (load_seasonal_stats env seasons true db) s = batch.length := by
  obtain ⟨pre, post, rfl⟩ := List.append_of_mem hs
  have hsplit := hnd
  rw [List.nodup_append] at hsplit
  obtain ⟨hpre, hcons, hdisj⟩ := hsplit
  have hspost : s ∉ post := (List.nodup_cons.mp hcons).1
  have hspre : s ∉ pre := fun hmem => hdisj hmem (List.mem_cons_self _ _)
  rw [load_seasonal_stats, if_pos rfl]
  have hc0 : seasonCount (deletePhase db (pre ++ s :: post)) s = 0 :=
    seasonCount_deletePhase_mem db _ s hs
  rw [runSeasons, List.foldl_append, List.foldl_cons]
  rw [show List.foldl (processSeason env true) (deletePhase db (pre ++ s :: post)) pre =
    runSeasons env true (deletePhase db (pre ++ s :: post)) pre from rfl]
  set d1 := runSeasons env true (deletePhase db (pre ++ s :: post)) pre with hd1
  have hc1 : seasonCount d1 s = 0 := by
    rw [hd1, runSeasons_seasonCount_not_mem env true s pre _ hspre, hc0]
  rw [show List.foldl (processSeason env true) (processSeason env true d1 s) post =
    runSeasons env true (processSeason env true d1 s) post from rfl]
  rw [runSeasons_seasonCount_not_mem env true s post _ hspost]
  rw [processSeason, if_neg (by simp), hfetch]
  cases batch with
  | nil =>
      show seasonCount d1 s = ([] : List ℕ).length
      rw [hc1]
      rfl
  | cons b bs =>
      show seasonCount (if env.insertFails s = true then d1 else d1 ++ mkRows s (b :: bs)) s =
        (b :: bs).length
      rw [hins, if_neg Bool.false_ne_true, seasonCount_append, hc1,
        seasonCount_mkRows_self s (b :: bs)]
      exact Nat.zero_add _

/-- A store holding two old rows for season 2024 and one for 2023. -/
def oldDb : List SRow :=
  [⟨2024, 90⟩, ⟨2024, 91⟩, ⟨2023, 80⟩]

/-- An environment fetching a replacement batch of three records. -/
def reloadEnv : LoaderEnv :=
  ⟨fun _ => Except.ok [7, 8, 9], fun _ => false⟩

/-- Witness for C8: after a force reload of 2024 the store holds exactly
3 rows for 2024 (the new batch), not 2 + 3. -/
theorem force_reload_replaces_witness :
    seasonCount (load_seasonal_stats reloadEnv [2024] true oldDb) 2024 = 3 :=
  force_reload_replaces reloadEnv [2024] oldDb 2024 [7, 8, 9]
    (by decide) (by decide) rfl rfl

/-! ### C9: a database error is caught and the loader continues -/

lemma processSeason_insert_fails (env : LoaderEnv) (force : Bool) (db : List SRow)
    (s : ℤ) (h : env.insertFails s = true) : processSeason env force db s = db := by
  by_cases hskip : 0 < seasonCount db s ∧ force = false
  · rw [processSeason, if_pos hskip]
  · rw [processSeason, if_neg hskip]
    cases hfe : env.fetch s with
    | error e => rfl
    | ok batch =>
        cases batch with
        | nil => rfl
        | cons b bs =>
            show (if env.insertFails s = true then db else db ++ mkRows s (b :: bs)) = db
            rw [if_pos h]

/-- C9: a database error during one season's batch insert is caught and
rolled back — that season's step leaves the store exactly as it was, its
rows are skipped with no retry — and the run over the full season list
equals the run with the failing season removed, so earlier seasons'
committed rows and the remaining seasons are unaffected. -/
theorem loader_continues_after_db_error (env : LoaderEnv) (force : Bool) (db : List SRow)
    (pre post : List ℤ) (s : ℤ) (h : env.insertFails s = true) :
    processSeason env force db s = db ∧
    runSeasons env force db (pre ++ s :: post) = runSeasons env force db (pre ++ post) := by
  refine ⟨processSeason_insert_fails env force db s h, ?_⟩
  rw [runSeasons, runSeasons, List.foldl_append, List.foldl_append, List.foldl_cons,
    processSeason_insert_fails env force _ s h]

/-- An environment whose batch insert fails exactly for season 2024. -/
def failEnv : LoaderEnv :=
  ⟨fun _ => Except.ok [1], fun s => decide (s = 2024)⟩

/-- A store holding one 2022 row. -/
def failDb : List SRow :=
  [⟨2022, 4⟩]

/-- Witness for C9: with 2024 failing its insert, the run over
[2023, 2024, 2025] equals the run over [2023, 2025]. -/
theorem loader_continues_after_db_error_witness :
    processSeason failEnv false failDb 2024 = failDb ∧
    runSeasons failEnv false failDb ([2023] ++ 2024 :: [2025]) =
      runSeasons failEnv false failDb ([2023] ++ [2025]) :=
  loader_continues_after_db_error failEnv false failDb [2023] [2025] 2024 (by decide)

/-!
### C10: `safe_float` and how missing upstream values are persisted

`safe_float` appears identically in both loader files
(load_seasonal_stats.py lines 326-333, load_weekly_stats.py lines
185-192).  Its input is one upstream cell: Python `None`, a float NaN, a
number, or a string.
-/

/-- One upstream cell as `safe_float` can receive it. -/
inductive PyScalar where
  | null : PyScalar
  | nan : PyScalar
  | num : ℚ → PyScalar
  | str : String → PyScalar
deriving DecidableEq, Repr

/-- The digits of a non-empty all-digit character list, as a natural
number; `Option.none` on anything else. -/
def digitsToNat (cs : List Char) : Option ℕ :=
  if cs ≠ [] ∧ cs.all Char.isDigit then
    some (cs.foldl (fun acc c => 10 * acc + (c.toNat - 48)) 0)
  else Option.none

/-- Model of the Python builtin `float` applied to a string: an optional
leading minus sign, then a plain decimal literal (digits, optionally one
dot and fraction digits).  Exotic forms of the grammar (exponents,
infinities, a leading or trailing dot) are outside this model and
parse to `Option.none`, standing for a ValueError. -/
def pyFloatOfString (s : String) : Option ℚ :=
  let parse := fun (cs : List Char) (sign : ℚ) =>
    let ip := cs.takeWhile (fun c => decide (c ≠ ('.')))
    match cs.dropWhile (fun c => decide (c ≠ ('.'))) with
    | [] => (digitsToNat ip).map (fun n => sign * (n : ℚ))
    | _ :: fp =>
        match digitsToNat ip, digitsToNat fp with
        | some i, some f => some (sign * ((i : ℚ) + (f : ℚ) / (10 : ℚ) ^ fp.length))
        | _, _ => Option.none
  match s.toList with
  | [] => Option.none
  | c :: rest => if c = ('-') then parse rest (-1) else parse (c :: rest) 1

/-- Embedding of `safe_float` (both loader files): `None` for `None`,
NaN (`pd.isna`), the empty string, and strings `float` cannot convert
(ValueError); otherwise `float(value)`. -/
def safe_float (v : PyScalar) : Option ℚ :=
  match v with
  | PyScalar.null => Option.none
  | PyScalar.nan => Option.none
  | PyScalar.num q => some q
  | PyScalar.str s => if s = ("") then Option.none else pyFloatOfString s

/-- Embeds `df.fillna(0)` of `clean_weekly_data` (load_weekly_stats.py line
169): every missing cell (`None` or NaN) becomes the number 0 before
the rows are converted. -/
def fillna0 (v : PyScalar) : PyScalar :=
  match v with
  | PyScalar.null => PyScalar.num 0
  | PyScalar.nan => PyScalar.num 0
  | x => x

/-- The value the weekly loader computes for one raw stat cell and
passes as a keyword argument of the record constructor: the cell first
passes `clean_weekly_data`'s `fillna(0)`, then `safe_float`
(load_weekly_stats.py lines 74, 92-140).  The constructor call itself
then fails — see `newNFLWeeklyStats` — so this value is never actually
stored. -/
def weekly_cell_value (v : PyScalar) : Option ℚ :=
  safe_float (fillna0 v)

/-- What the seasonal loader's API path stores for one raw stat cell:
`safe_float` directly on the cell (load_seasonal_stats.py lines
260-315). -/
def seasonal_stored_stat (v : PyScalar) : Option ℚ :=
  safe_float v

/-- The keyword arguments `load_weekly_stats` passes to the
`NFLWeeklyStats` constructor (load_weekly_stats.py lines 80-140) —
note `team` at line 87. -/
def weeklyInsertKwargs : List String :=
  [("player_id"), ("season"), ("week"), ("player_name"), ("player_display_name"),
   ("position"), ("position_group"), ("team"), ("opponent_team"), ("season_type"),
   ("completions"), ("attempts"), ("passing_yards"), ("passing_tds"),
   ("interceptions"), ("sacks"), ("sack_yards"), ("sack_fumbles"),
   ("sack_fumbles_lost"), ("passing_air_yards"), ("passing_yards_after_catch"),
   ("passing_first_downs"), ("passing_epa"), ("passing_2pt_conversions"),
   ("carries"), ("rushing_yards"), ("rushing_tds"), ("rushing_fumbles"),
   ("rushing_fumbles_lost"), ("rushing_first_downs"), ("rushing_epa"),
   ("rushing_2pt_conversions"), ("targets"), ("receptions"), ("receiving_yards"),
   ("receiving_tds"), ("receiving_fumbles"), ("receiving_fumbles_lost"),
   ("receiving_air_yards"), ("receiving_yards_after_catch"),
   ("receiving_first_downs"), ("receiving_epa"), ("receiving_2pt_conversions"),
   ("special_teams_tds"), ("fantasy_points"), ("fantasy_points_ppr"),
   ("target_share"), ("air_yards_share"), ("wopr")]

/-- The SQLAlchemy declarative constructor `NFLWeeklyStats(...)`: it
accepts only declared column attributes as keyword arguments and raises
TypeError on any other (here the kwarg values are irrelevant, only the
names matter). -/
def newNFLWeeklyStats (kwargs : List String) : Except String Unit :=
  if ∀ k ∈ kwargs, k ∈ nflWeeklyStatsColumns then Except.ok ()
  else Except.error (("TypeError"))

/-- C10 counterexample: the weekly loader persists nothing at all — its
record construction passes `team=` (line 87), which the model (having
`recent_team`, no `team`) rejects with a TypeError, caught by the
per-season handler — so a missing weekly stat is not persisted as null
(nor as anything); and the cell value it had prepared for a missing
stat was 0 after `fillna(0)`, not null.  The seasonal loader does
persist null.  Hence "persisted as null in both loaders" fails. -/
theorem safe_float_missing_persisted_counterexample :
    ("team") ∈ weeklyInsertKwargs ∧
    ("team") ∉ nflWeeklyStatsColumns ∧
    newNFLWeeklyStats weeklyInsertKwargs = Except.error (("TypeError")) ∧
    weekly_cell_value PyScalar.nan = some 0 ∧
    seasonal_stored_stat PyScalar.nan = Option.none := by
  refine ⟨by simp [weeklyInsertKwargs], by simp [nflWeeklyStatsColumns], ?_, rfl, rfl⟩
  rw [newNFLWeeklyStats, if_neg]
  intro hall
  exact absurd (hall ("team") (by simp [weeklyInsertKwargs]))
    (by simp [nflWeeklyStatsColumns])

/-- C10 amended: `safe_float` is total and deterministic, returns `None`
exactly when the value is `None`, NaN, the empty string, or a string
`float` cannot convert, and otherwise returns `float(value)`; the
seasonal loader accordingly persists a missing stat as null, but the
weekly loader persists nothing at all — its record construction raises
TypeError on the `team=` keyword the model does not declare — and the
cell value it prepares for a missing stat is 0 (`fillna(0)`), not
null. -/
theorem safe_float_characterization (v : PyScalar) (q : ℚ) (s : String) :
    safe_float PyScalar.null = Option.none ∧
    safe_float PyScalar.nan = Option.none ∧
    safe_float (PyScalar.num q) = some q ∧
    safe_float (PyScalar.str ("")) = Option.none ∧
    (s ≠ ("") → safe_float (PyScalar.str s) = pyFloatOfString s) ∧
    (safe_float v = Option.none ↔
      v = PyScalar.null ∨ v = PyScalar.nan ∨
      ∃ t, v = PyScalar.str t ∧ (t = ("") ∨ pyFloatOfString t = Option.none)) ∧
    seasonal_stored_stat PyScalar.nan = Option.none ∧
    newNFLWeeklyStats weeklyInsertKwargs = Except.error (("TypeError")) ∧
    weekly_cell_value PyScalar.nan = some 0 := by
  refine ⟨rfl, rfl, rfl, rfl, fun hs => by rw [safe_float, if_neg hs], ?_, rfl, ?_, rfl⟩
  · cases v with
    | null => simp [safe_float]
    | nan => simp [safe_float]
    | num p => simp [safe_float]
    | str t =>
        by_cases ht : t = ("")
        · subst ht
          simp [safe_float]
        · rw [safe_float, if_neg ht]
          simp [ht]
  · rw [newNFLWeeklyStats, if_neg]
    intro hall
    exact absurd (hall ("team") (by simp [weeklyInsertKwargs]))
      (by simp [nflWeeklyStatsColumns])

/-- Witness for the amended C10 at concrete values. -/
theorem safe_float_characterization_witness :
    safe_float (PyScalar.num 7) = some 7 ∧
    safe_float (PyScalar.str ("12.5")) = pyFloatOfString ("12.5") ∧
    newNFLWeeklyStats weeklyInsertKwargs = Except.error (("TypeError")) ∧
    weekly_cell_value PyScalar.nan = some 0 :=
  ⟨(safe_float_characterization PyScalar.nan 7 ("12.5")).2.2.1,
   (safe_float_characterization PyScalar.nan 7 ("12.5")).2.2.2.2.1 (by simp),
   (safe_float_characterization PyScalar.nan 7 ("12.5")).2.2.2.2.2.2.2.1,
   (safe_float_characterization PyScalar.nan 7 ("12.5")).2.2.2.2.2.2.2.2⟩

end FFB
